import Mathlib

/-!
Verification of the Telegram webhook bot in `api/index.py`.

The Python module is shallowly embedded as follows:
* JSON payloads become the inductive `Json`; Python dictionary/sequence
  operations that can raise (`d[k]`, `"k" in x`, `.get`, `.split` on a
  non-string) become `Except PyErr` computations, so an uncaught Python
  exception is an `Except.error`.
* Python dicts preserve insertion order, so the static content catalog
  `CONTENT` and every JSON object are association lists.
* The outbound Telegram calls `sendMessage` / `editMessageText` are the
  constructors of `Op`; a handler returns the list of outbound operations
  it performs, in order.
-/

/-- A JSON value, as produced by FastAPI's `request.json()`. -/
inductive Json where
  | null
  | bool (b : Bool)
  | num (n : Int)
  | str (s : String)
  | arr (xs : List Json)
  | obj (fields : List (String × Json))

/-- The Python exceptions the embedded fragment can raise. -/
inductive PyErr where
  | typeError
  | keyError
  | attrError
deriving DecidableEq

/-- Ordered dictionary lookup: Python `d.get(k)` on an association list. -/
def dget {α : Type} (d : List (String × α)) (k : String) : Option α :=
  (d.find? (fun p => p.1 == k)).map (fun p => p.2)

/-- Python `needle in haystack` for strings (substring test). -/
def substrB : List Char → List Char → Bool
  | n, [] => n.isEmpty
  | n, c :: t => n.isPrefixOf (c :: t) || substrB n t

/-- Python `==` between a JSON value and a string. -/
def jsonEqStr : Json → String → Bool
  | .str s, k => s == k
  | _, _ => false

/-- Python truthiness of a JSON value. -/
def truthy : Json → Bool
  | .null => false
  | .bool b => b
  | .num n => n != 0
  | .str s => s != ""
  | .arr xs => !xs.isEmpty
  | .obj fs => !fs.isEmpty

/-- Python `k in j`: key test on dicts, membership on lists, substring on
strings, `TypeError` otherwise. -/
def pyContains (k : String) (j : Json) : Except PyErr Bool :=
  match j with
  | .obj fs => .ok (fs.any (fun p => p.1 == k))
  | .arr xs => .ok (xs.any (fun x => jsonEqStr x k))
  | .str s => .ok (substrB k.data s.data)
  | _ => .error .typeError

/-- Python subscript `j[k]` with a string key: `KeyError` on a missing dict
key, `TypeError` on every non-dict value. -/
def pyIndex (j : Json) (k : String) : Except PyErr Json :=
  match j with
  | .obj fs =>
    match dget fs k with
    | some v => .ok v
    | none => .error .keyError
  | _ => .error .typeError

/-- Python `j.get(k, dflt)`: only dicts have `.get`, so any other value
raises `AttributeError`. -/
def pyGet (j : Json) (k : String) (dflt : Json) : Except PyErr Json :=
  match j with
  | .obj fs => .ok ((dget fs k).getD dflt)
  | _ => .error .attrError

/-- Python `j.split(...)` requires a string receiver (`AttributeError`
otherwise). -/
def pyAsStr (j : Json) : Except PyErr String :=
  match j with
  | .str s => .ok s
  | _ => .error .attrError

/-- Helper for `pySplit`: accumulates the current component (reversed). -/
def pySplitAux (sep : Char) : List Char → List Char → List String
  | acc, [] => [String.mk acc.reverse]
  | acc, c :: cs =>
    if c = sep then String.mk acc.reverse :: pySplitAux sep [] cs
    else pySplitAux sep (c :: acc) cs

/-- Python `s.split(sep)` for a one-character separator: components between
separator occurrences, empty components kept, `"".split(sep) = [""]`. -/
def pySplit (s : String) (sep : Char) : List String :=
  pySplitAux sep [] s.data

/-- One button of an inline keyboard: label and `callback_data` token. -/
structure Button where
  text : String
  callback_data : String
deriving DecidableEq

/-- The `reply_markup` structure: rows of buttons. -/
structure Markup where
  inline_keyboard : List (List Button)
deriving DecidableEq

/-- An outbound Telegram Bot API operation. -/
inductive Op where
  | send (chat_id : Json) (text : String) (reply_markup : Option Markup)
  | edit (chat_id : Json) (message_id : Json) (text : String) (reply_markup : Option Markup)

/-- The static content hierarchy built by `_build_content`:
category → subcategory → item name → the item dict (with `text` and `url`
fields).  Python dicts preserve insertion order, so every level is the
association list in source order. -/
def CONTENT : List (String × List (String × List (String × List (String × String)))) := [
  ("الأدعية", [
    ("الأدعية العامة", [
      ("دعاء كميل", [("text", "دعاء كميل هو دعاء معروف ينسب للإمام علي بن أبي طالب عليه السلام."), ("url", "https://hmomen.com/duaa/general/duaa-kumail")]),
      ("دعاء الجوشن الكبير", [("text", "دعاء الجوشن الكبير يُقرأ في ليالي شهر رمضان المبارك."), ("url", "https://hmomen.com/duaa/general/duaa-jawshan-kabir")]),
      ("دعاء الندبة", [("text", "دعاء الندبة يُقرأ في الأعياد الأربعة ويُظهر الشوق للإمام المنتظر."), ("url", "https://hmomen.com/duaa/general/duaa-nudba")]),
      ("دعاء الافتتاح", [("text", "دعاء الافتتاح يُقرأ في ليالي شهر رمضان ويتضمن الثناء على الله والدعاء للنبي وأهل بيته."), ("url", "https://hmomen.com/duaa/general/duaa-iftitah")])
    ]),
    ("أدعية الأيام", [
      ("دعاء يوم السبت", [("text", "دعاء مخصوص يُقرأ يوم السبت يطلب فيه من الله الفرج والتوفيق."), ("url", "https://hmomen.com/duaa/days/saturday")]),
      ("دعاء يوم الأحد", [("text", "دعاء يوم الأحد، يبتدئ بالحمد لله ويطلب الستر والمغفرة."), ("url", "https://hmomen.com/duaa/days/sunday")]),
      ("دعاء يوم الاثنين", [("text", "دعاء يوم الاثنين يطلب العفو والرزق الحلال."), ("url", "https://hmomen.com/duaa/days/monday")]),
      ("دعاء يوم الثلاثاء", [("text", "دعاء يوم الثلاثاء يتوسل إلى الله بأسماء الأنبياء عليهم السلام."), ("url", "https://hmomen.com/duaa/days/tuesday")]),
      ("دعاء يوم الأربعاء", [("text", "دعاء يوم الأربعاء يدعو للتوفيق والبركة."), ("url", "https://hmomen.com/duaa/days/wednesday")]),
      ("دعاء يوم الخميس", [("text", "دعاء يوم الخميس يطلب المغفرة والتسديد."), ("url", "https://hmomen.com/duaa/days/thursday")]),
      ("دعاء يوم الجمعة", [("text", "دعاء يوم الجمعة يُكثر فيه الثناء على الله والصلاة على محمد وآله."), ("url", "https://hmomen.com/duaa/days/friday")])
    ]),
    ("تعقيبات الصلاة", [
      ("أذكار بعد الصلاة", [("text", "مجموعة من الأذكار والتسبيحات تقال بعد الصلوات الخمس."), ("url", "https://hmomen.com/duaa/after-prayers")])
    ]),
    ("الصلوات على الحجج الطاهرين", [
      ("الصلاة على النبي وأهل بيته", [("text", "صلوات خاصة على النبي صلى الله عليه وآله والأئمة الأطهار."), ("url", "https://hmomen.com/duaa/salawat")])
    ])
  ]),
  ("الزيارات", [
    ("الزيارات العامة", [
      ("زيارة عاشوراء", [("text", "زيارة عاشوراء تُقرأ لإحياء ذكرى الإمام الحسين عليه السلام."), ("url", "https://hmomen.com/ziyarat/general/ziyarat-ashura")]),
      ("الزيارة الجامعة الكبيرة", [("text", "زيارة الجامعة الكبيرة نصٌ جامع لزيارة الأئمة الأطهار."), ("url", "https://hmomen.com/ziyarat/general/universial")])
    ]),
    ("زيارة الأئمة في أيام الأسبوع", [
      ("زيارة الإمام أمير المؤمنين يوم الاثنين", [("text", "زيارة قصيرة تُقرأ للإمام علي بن أبي طالب يوم الاثنين."), ("url", "https://hmomen.com/ziyarat/week/imam-ali-monday")]),
      ("زيارة الإمام الحسين يوم الثلاثاء", [("text", "زيارة قصيرة تُقرأ للإمام الحسين يوم الثلاثاء."), ("url", "https://hmomen.com/ziyarat/week/imam-husayn-tuesday")]),
      ("زيارة الإمام الكاظم والجواد يوم الأربعاء", [("text", "زيارة تُقرأ للإمامين موسى الكاظم ومحمد الجواد يوم الأربعاء."), ("url", "https://hmomen.com/ziyarat/week/imam-kadhim-jawad-wednesday")]),
      ("زيارة الإمام الرضا والإمام الهادي يوم الخميس", [("text", "زيارة تُقرأ للإمامين علي الرضا وعلي الهادي يوم الخميس."), ("url", "https://hmomen.com/ziyarat/week/imam-redha-hadi-thursday")]),
      ("زيارة النبي الأكرم يوم الجمعة", [("text", "زيارة قصيرة تُقرأ للنبي محمد صلى الله عليه وآله يوم الجمعة."), ("url", "https://hmomen.com/ziyarat/week/prophet-friday")])
    ])
  ]),
  ("المناجات والتسابيح", [
    ("المناجات", [
      ("مناجاة التائبين", [("text", "مناجاة التائبين مناجاة توبة وندم."), ("url", "https://hmomen.com/munajat/repentant")]),
      ("مناجاة الشاكرين", [("text", "مناجاة الشاكرين تشكر الله على نعمه."), ("url", "https://hmomen.com/munajat/grateful")]),
      ("مناجاة المحبين", [("text", "مناجاة المحبين تعبّر عن حب الله."), ("url", "https://hmomen.com/munajat/lovers")])
    ]),
    ("التسابيح", [
      ("تسبيح يوم السبت", [("text", "تسبيح يقال يوم السبت يتضمن ذكر الله والتضرع."), ("url", "https://hmomen.com/tasbih/saturday")]),
      ("تسبيح يوم الأحد", [("text", "تسبيح يوم الأحد يحوي تمجيدًا لله عز وجل."), ("url", "https://hmomen.com/tasbih/sunday")]),
      ("تسبيح يوم الاثنين", [("text", "تسبيح يوم الاثنين يدعو لله بالرحمة."), ("url", "https://hmomen.com/tasbih/monday")]),
      ("تسبيح يوم الثلاثاء", [("text", "تسبيح يوم الثلاثاء يتضمن الحمد والشكر."), ("url", "https://hmomen.com/tasbih/tuesday")]),
      ("تسبيح يوم الأربعاء", [("text", "تسبيح يوم الأربعاء يكثر فيه الاستغفار."), ("url", "https://hmomen.com/tasbih/wednesday")]),
      ("تسبيح يوم الخميس", [("text", "تسبيح يوم الخميس يشتمل على الثناء والتقديس."), ("url", "https://hmomen.com/tasbih/thursday")]),
      ("تسبيح يوم الجمعة", [("text", "تسبيح يوم الجمعة يُستحب إكثاره، ويشمل الصلاة على محمد وآله."), ("url", "https://hmomen.com/tasbih/friday")])
    ])
  ]),
  ("الأعمال", [
    ("محرم", [
      ("أعمال الليلة الأولى", [("text", "أعمال عبادة لليلة الأولى من شهر محرم."), ("url", "https://hmomen.com/amal/muharram/night1")]),
      ("أعمال اليوم الأول", [("text", "أعمال اليوم الأول تشمل الصيام والدعاء."), ("url", "https://hmomen.com/amal/muharram/day1")]),
      ("أعمال يوم التاسع", [("text", "أعمال يوم التاسع من محرم تتضمن زيارة الإمام الحسين."), ("url", "https://hmomen.com/amal/muharram/day9")]),
      ("أعمال يوم العاشر", [("text", "أعمال عاشوراء تتضمن الدعاء والبكاء على الإمام الحسين."), ("url", "https://hmomen.com/amal/muharram/day10")])
    ]),
    ("صفر", [
      ("أعمال اليوم الأول", [("text", "أعمال اليوم الأول من شهر صفر تتضمن الصدقة والصلاة."), ("url", "https://hmomen.com/amal/safar/day1")]),
      ("أعمال اليوم الثالث والعشرين", [("text", "أعمال اليوم الثالث والعشرين من صفر تشمل زيارة الإمام الحسين."), ("url", "https://hmomen.com/amal/safar/day23")])
    ]),
    ("ربيع الأول", [
      ("أعمال اليوم الأول", [("text", "أعمال اليوم الأول من ربيع الأول."), ("url", "https://hmomen.com/amal/rabee1/day1")]),
      ("أعمال اليوم الثاني عشر", [("text", "أعمال اليوم الثاني عشر تشمل الاحتفال بمولد النبي."), ("url", "https://hmomen.com/amal/rabee1/day12")]),
      ("أعمال الليلة التاسعة عشرة", [("text", "أعمال الليلة التاسعة عشرة من ربيع الأول."), ("url", "https://hmomen.com/amal/rabee1/night19")])
    ]),
    ("رجب", [
      ("أعمال الليلة الثالثة", [("text", "أعمال الليلة الثالثة من شهر رجب."), ("url", "https://hmomen.com/amal/rajab/night3")]),
      ("أعمال الليلة الرابعة", [("text", "أعمال الليلة الرابعة من رجب."), ("url", "https://hmomen.com/amal/rajab/night4")]),
      ("أعمال الليلة الخامسة", [("text", "أعمال الليلة الخامسة من رجب."), ("url", "https://hmomen.com/amal/rajab/night5")]),
      ("أعمال الليلة التاسعة", [("text", "أعمال الليلة التاسعة من رجب."), ("url", "https://hmomen.com/amal/rajab/night9")]),
      ("أعمال الليلة الرابعة والعشرين", [("text", "أعمال الليلة الرابعة والعشرين من رجب."), ("url", "https://hmomen.com/amal/rajab/night24")])
    ]),
    ("شعبان", [
      ("أعمال اليوم الأول", [("text", "أعمال اليوم الأول من شعبان."), ("url", "https://hmomen.com/amal/shaban/day1")]),
      ("أعمال اليوم الثاني", [("text", "أعمال اليوم الثاني من شعبان."), ("url", "https://hmomen.com/amal/shaban/day2")]),
      ("أعمال اليوم الثالث", [("text", "أعمال اليوم الثالث من شعبان."), ("url", "https://hmomen.com/amal/shaban/day3")])
    ]),
    ("شوال", [
      ("أعمال الليلة الأولى", [("text", "أعمال الليلة الأولى من شوال."), ("url", "https://hmomen.com/amal/shawwal/night1")]),
      ("أعمال اليوم الأول", [("text", "أعمال اليوم الأول من شوال وتشمل صلاة العيد."), ("url", "https://hmomen.com/amal/shawwal/day1")])
    ]),
    ("ذو القعدة", [
      ("أعمال عامة", [("text", "أعمال عامة لشهر ذو القعدة."), ("url", "https://hmomen.com/amal/zulqadah/general")]),
      ("أعمال اليوم الخامس", [("text", "أعمال اليوم الخامس من ذو القعدة."), ("url", "https://hmomen.com/amal/zulqadah/day5")]),
      ("أعمال اليوم الحادي عشر", [("text", "أعمال اليوم الحادي عشر من ذو القعدة."), ("url", "https://hmomen.com/amal/zulqadah/day11")]),
      ("أعمال اليوم الثالث والعشرون", [("text", "أعمال اليوم الثالث والعشرون من ذو القعدة."), ("url", "https://hmomen.com/amal/zulqadah/day23")]),
      ("أعمال الليلة الخامسة عشر", [("text", "أعمال الليلة الخامسة عشر من ذو القعدة."), ("url", "https://hmomen.com/amal/zulqadah/night15")]),
      ("أعمال من الثامن عشر إلى نهاية الشهر", [("text", "أعمال الثلث الأخير من شهر ذو القعدة."), ("url", "https://hmomen.com/amal/zulqadah/after18")])
    ]),
    ("ذو الحجة", [
      ("أعمال اليوم الأول حتى اليوم العاشر", [("text", "أعمال الأيام العشرة الأولى من ذو الحجة تتضمن أعمال الحج والتقرب."), ("url", "https://hmomen.com/amal/zulhijjah/day1-10")]),
      ("أعمال اليوم الثامن عشر", [("text", "أعمال اليوم الثامن عشر من ذو الحجة، يوم الغدير."), ("url", "https://hmomen.com/amal/zulhijjah/day18")]),
      ("أعمال اليوم الرابع والعشرين", [("text", "أعمال اليوم الرابع والعشرين من ذو الحجة."), ("url", "https://hmomen.com/amal/zulhijjah/day24")]),
      ("أعمال اليوم الثلاثون", [("text", "أعمال اليوم الثلاثون من ذو الحجة."), ("url", "https://hmomen.com/amal/zulhijjah/day30")])
    ])
  ])
]

/-- The root-menu prompt sent by `handle_message`. -/
def rootPrompt : String := "اختر قسمًا من الأقسام التالية:"

/-- `build_keyboard(options, prefix)`: one single-button row per key of the
options mapping, in mapping order, with `callback_data` built from the
prefix, a pipe and the key. -/
def build_keyboard {α : Type} (options : List (String × α)) (pfx : String) : Markup :=
  { inline_keyboard := options.map (fun kv => [{ text := kv.1, callback_data := pfx ++ "|" ++ kv.1 }]) }

/-- `handle_message`: every text message is answered with the fixed prompt
and the top-level category keyboard. -/
def handle_message (message : Json) : Except PyErr (List Op) := do
  let chat ← pyIndex message "chat"
  let chat_id ← pyIndex chat "id"
  pure [Op.send chat_id rootPrompt (some (build_keyboard CONTENT "cat"))]

/-- The token-dispatch part of `handle_callback_query`: the
`parts = data.split("|")` computation and the `if`/`elif` chain over the
token kind and the number of parts. -/
def routeToken (ds : String) (chat_id message_id : Json) : Except PyErr (List Op) :=
  let parts := pySplit ds '|'
  if parts.isEmpty then
    pure []
  else
    let kind := parts.headD ""
    if kind == "cat" && parts.length == 2 then
      let category := parts.getD 1 ""
      let sub_options := (dget CONTENT category).getD []
      let text := "اختر قسمًا فرعيًا من " ++ category ++ ":"
      let reply_markup := build_keyboard sub_options ("sub|" ++ category)
      pure [Op.edit chat_id message_id text (some reply_markup)]
    else if kind == "sub" && parts.length == 3 then
      let category := parts.getD 1 ""
      let subcategory := parts.getD 2 ""
      let items := (dget ((dget CONTENT category).getD []) subcategory).getD []
      let text := "اختر موضوعًا من " ++ subcategory ++ ":"
      let reply_markup := build_keyboard items ("item|" ++ category ++ "|" ++ subcategory)
      pure [Op.edit chat_id message_id text (some reply_markup)]
    else if kind == "item" && parts.length == 4 then
      let category := parts.getD 1 ""
      let subcategory := parts.getD 2 ""
      let item_name := parts.getD 3 ""
      let entry := (dget ((dget ((dget CONTENT category).getD []) subcategory).getD []) item_name).getD []
      let text := (dget entry "text").getD ""
      let url := dget entry "url"
      let text := match url with
        | some u => if u == "" then text else text ++ "\n\n📎 رابط: " ++ u
        | none => text
      pure [Op.edit chat_id message_id text none]
    else
      pure []

/-- `handle_callback_query`: decodes the pipe-separated `callback_data` and
renders the requested view by editing the originating message.  Note that
`chat_id` and `message_id` are read from `callback_query.get("message")`
before the token is examined, so a payload without a `message` raises. -/
def handle_callback_query (cq : Json) : Except PyErr (List Op) := do
  let data ← pyGet cq "data" (.str "")
  let message ← pyGet cq "message" .null
  let chat ← pyIndex message "chat"
  let chat_id ← pyIndex chat "id"
  let message_id ← pyIndex message "message_id"
  let ds ← pyAsStr data
  routeToken ds chat_id message_id

/-- The body of `telegram_webhook` after JSON decoding: dispatch on the
update's shape exactly as the Python `if`/`elif` chain does. -/
def processUpdate (update : Json) : Except PyErr (List Op) := do
  let hasMsg ← pyContains "message" update
  if hasMsg then
    let m ← pyIndex update "message"
    let t ← pyGet m "text" .null
    if truthy t then handle_message m else pure []
  else
    let hasCb ← pyContains "callback_query" update
    if hasCb then
      let cb ← pyIndex update "callback_query"
      handle_callback_query cb
    else
      pure []

/-- How a webhook invocation can fail: the explicit
`HTTPException(status_code=400)` for undecodable bodies, or an uncaught
Python exception, which FastAPI turns into a 500 response. -/
inductive WebErr where
  | badRequest
  | internalError (e : PyErr)
deriving DecidableEq

/-- HTTP status code of a failed webhook invocation. -/
def statusCode : WebErr → Nat
  | .badRequest => 400
  | .internalError _ => 500

/-- The fixed acknowledgment body `{"status": "ok"}`. -/
def ackBody : Json := .obj [("status", .str "ok")]

/-- `telegram_webhook`: `none` stands for a request body that is not valid
JSON (`request.json()` raised).  On success the endpoint returns the fixed
acknowledgment body together with the outbound operations performed. -/
def telegram_webhook (body : Option Json) : Except WebErr (Json × List Op) :=
  match body with
  | none => .error .badRequest
  | some update =>
    match processUpdate update with
    | .ok ops => .ok (ackBody, ops)
    | .error e => .error (.internalError e)

/-- Module initialization: `BOT_TOKEN = os.getenv("BOT_TOKEN", "")` followed
by the startup check that raises `RuntimeError` when the token is falsy.
The environment is a partial map from variable names to values. -/
def moduleInit (env : String → Option String) : Except String String :=
  let tok := (env "BOT_TOKEN").getD ""
  if tok == "" then
    .error "BOT_TOKEN environment variable is not set. Please configure your bot token"
  else
    .ok tok

/-- Modelled from the spec: the whitespace characters removed by trimming
(the Chunker component of §4.4 is part of the repository's second variant,
which is absent from `src/`). -/
def isWS (c : Char) : Bool :=
  c == ' ' || c == '\t' || c == '\n' || c == '\r'

/-- Modelled from the spec: trimming a text, removing leading and trailing
whitespace. -/
def stripChars (l : List Char) : List Char :=
  ((l.dropWhile isWS).reverse.dropWhile isWS).reverse

/-- Largest index `i < n` satisfying the predicate, scanning backward. -/
def searchBack (p : Nat → Bool) : Nat → Option Nat
  | 0 => none
  | n + 1 => if p n then some n else searchBack p n

/-- Modelled from the spec: position of the last double line-break inside
the window. -/
def break2Idx (p : List Char) : Option Nat :=
  searchBack (fun i => (p.getD i ' ' == '\n') && (p.getD (i + 1) ' ' == '\n')) p.length

/-- Modelled from the spec: position of the last single line-break inside
the window. -/
def break1Idx (p : List Char) : Option Nat :=
  searchBack (fun i => p.getD i ' ' == '\n') p.length

/-- Modelled from the spec: the single line-break fallback with the same
200-character minimum-distance rule; if still none, cut at the limit. -/
def cutFallback (p : List Char) (L : Nat) : Nat :=
  match break1Idx p with
  | some i => if 200 ≤ i then i else L
  | none => L

/-- Modelled from the spec: the cut position inside the window — the last
double line-break unless it is within 200 characters of the start, else
the single line-break fallback, else exactly the length limit. -/
def cutPoint (p : List Char) (L : Nat) : Nat :=
  match break2Idx p with
  | some i => if 200 ≤ i then i else cutFallback p L
  | none => cutFallback p L

/-- Modelled from the spec: the Chunker loop — take the window of at most
`L` characters, cut it at `cutPoint`, trim the fragment and the remainder,
drop fragments that are empty after trimming, and repeat until the
remaining text is exhausted.  `fuel` bounds the recursion; `chunk_text`
supplies enough of it for the loop to run to exhaustion. -/
def chunkLoop (L : Nat) : Nat → List Char → List (List Char)
  | 0, _ => []
  | fuel + 1, r =>
    if r.length ≤ L then
      if r.isEmpty then [] else [r]
    else
      let p := r.take L
      let c := cutPoint p L
      let frag := stripChars (r.take c)
      let rest := stripChars (r.drop c)
      if frag.isEmpty then chunkLoop L fuel rest else frag :: chunkLoop L fuel rest

/-- Modelled from the spec: the Chunker (§4.4).  If the trimmed input fits
within the limit it is returned as a single fragment, otherwise the text is
cut repeatedly at paragraph/line boundaries (or hard-cut at the limit). -/
def chunk_text (text : List Char) (L : Nat) : List (List Char) :=
  let t := stripChars text
  if t.length ≤ L then [t] else chunkLoop L t.length t

/-- The callback-token shapes the program actually emits: `cat|<category>`
from the root menu, `sub|<category>|<subcategory>` from a category view and
`item|<category>|<subcategory>|<item>` from a subcategory view. -/
def actualTokenShape (t : String) : Prop :=
  (∃ k, t = "cat|" ++ k) ∨
  (∃ c k, t = "sub|" ++ c ++ "|" ++ k) ∨
  (∃ c s k, t = "item|" ++ c ++ "|" ++ s ++ "|" ++ k)

/-- The spec's token grammar, stated from its words for comparison with the
code: pipe-delimited shapes `cat|<category>`, `sub|<subcategory-id>`,
`it|<subcategory-id>|<item-path>`, `back|main`; ASCII-safe; at most 64
bytes. -/
def specTokenOk (t : String) : Bool :=
  (match pySplit t '|' with
   | ["cat", _] => true
   | ["sub", _] => true
   | ["it", _, _] => true
   | ["back", "main"] => true
   | _ => false) &&
  t.data.all (fun ch => ch.toNat < 128) &&
  t.utf8ByteSize ≤ 64

/-- All callback tokens of a keyboard markup, row by row. -/
def markupTokens (m : Markup) : List String :=
  (m.inline_keyboard.map (fun row => row.map (fun b => b.callback_data))).flatten

/-- The keyboard markup attached to an outbound operation, if any. -/
def markupOf : Op → Option Markup
  | .send _ _ rm => rm
  | .edit _ _ _ rm => rm

/-- All callback tokens attached to a list of outbound operations. -/
def opTokens (ops : List Op) : List String :=
  (ops.map (fun op => (markupOf op).elim [] markupTokens)).flatten

/-- The condition under which the `if`/`elif` chain of
`handle_callback_query` recognizes a token, as a function of its
pipe-separated parts. -/
def tokenRecognized (parts : List String) : Bool :=
  (parts.headD "" == "cat" && parts.length == 2) ||
  (parts.headD "" == "sub" && parts.length == 3) ||
  (parts.headD "" == "item" && parts.length == 4)

/-- The `data` field a callback handler run reads (with its `""` default). -/
def cbRawData (cq : Json) : Except PyErr Json :=
  pyGet cq "data" (.str "")

/-- The chat identifier a callback handler run reads:
`callback_query.get("message")["chat"]["id"]`. -/
def cbChatId (cq : Json) : Except PyErr Json := do
  let m ← pyGet cq "message" .null
  let chat ← pyIndex m "chat"
  pyIndex chat "id"

/-- The message identifier a callback handler run reads:
`callback_query.get("message")["message_id"]`. -/
def cbMessageId (cq : Json) : Except PyErr Json := do
  let m ← pyGet cq "message" .null
  pyIndex m "message_id"

/-- A message-event update payload with the given chat id and text. -/
def mkMsgUpdate (cid : Json) (t : String) : Json :=
  .obj [("message", .obj [("chat", .obj [("id", cid)]), ("text", .str t)])]

/-- A well-formed callback-event payload with the given token. -/
def mkCbQuery (d : String) : Json :=
  .obj [("data", .str d),
        ("message", .obj [("chat", .obj [("id", .num 1)]), ("message_id", .num 2)])]

/-- A callback payload whose `message` field is absent. -/
def cbMissingMsg : Json := .obj [("data", .str "cat|x")]

/-- A valid-JSON update whose callback query lacks its `message`. -/
def updNoMsg : Json := .obj [("callback_query", .obj [("data", .str "x")])]

/-- The longest item token of the ذو الحجة subcategory, as emitted by the
subcategory view. -/
def longToken : String := "item|الأعمال|ذو الحجة|أعمال اليوم الأول حتى اليوم العاشر"

/-- The keyboard the handler builds for the `sub|الأعمال|ذو الحجة` token. -/
def subKb : Markup :=
  build_keyboard ((dget ((dget CONTENT "الأعمال").getD []) "ذو الحجة").getD [])
    ("item|" ++ "الأعمال" ++ "|" ++ "ذو الحجة")

/-- A callback payload carrying an extra `id` field. -/
def cbW1 : Json :=
  .obj [("id", .num 10), ("data", .str "cat|الأدعية"),
        ("message", .obj [("chat", .obj [("id", .num 1)]), ("message_id", .num 2)])]

/-- The same callback payload as `cbW1` except for the extra `id` field. -/
def cbW2 : Json :=
  .obj [("id", .num 99), ("data", .str "cat|الأدعية"),
        ("message", .obj [("chat", .obj [("id", .num 1)]), ("message_id", .num 2)])]

theorem ok_bind {ε α β : Type} (a : α) (f : α → Except ε β) :
    (Except.ok a >>= f) = f a := rfl

theorem error_bind {ε α β : Type} (e : ε) (f : α → Except ε β) :
    ((Except.error e : Except ε α) >>= f) = Except.error e := rfl

theorem pySplitAux_ne_nil (sep : Char) (acc cs : List Char) :
    pySplitAux sep acc cs ≠ [] := by
  induction cs generalizing acc with
  | nil => simp [pySplitAux]
  | cons c t ih =>
    simp only [pySplitAux]
    split
    · simp
    · exact ih _

theorem pySplit_ne_nil (s : String) (sep : Char) : pySplit s sep ≠ [] :=
  pySplitAux_ne_nil sep [] s.data

theorem markupTokens_build {α : Type} (options : List (String × α)) (pfx : String) :
    markupTokens (build_keyboard options pfx) =
      options.map (fun kv => pfx ++ "|" ++ kv.1) := by
  induction options with
  | nil => rfl
  | cons kv rest ih =>
    simp only [markupTokens, build_keyboard, List.map_cons, List.flatten] at *
    simpa using ih

theorem dropWhile_length_le (p : Char → Bool) (l : List Char) :
    (l.dropWhile p).length ≤ l.length := by
  induction l with
  | nil => simp
  | cons a t ih =>
    simp only [List.dropWhile]
    split
    · exact Nat.le_succ_of_le ih
    · simp

theorem stripChars_length_le (l : List Char) : (stripChars l).length ≤ l.length := by
  unfold stripChars
  calc ((l.dropWhile isWS).reverse.dropWhile isWS).reverse.length
      = ((l.dropWhile isWS).reverse.dropWhile isWS).length := by simp
    _ ≤ (l.dropWhile isWS).reverse.length := dropWhile_length_le _ _
    _ = (l.dropWhile isWS).length := by simp
    _ ≤ l.length := dropWhile_length_le _ _

theorem searchBack_lt (p : Nat → Bool) (n i : Nat) (h : searchBack p n = some i) :
    i < n := by
  induction n with
  | zero => simp [searchBack] at h
  | succ m ih =>
    simp only [searchBack] at h
    split at h
    · have := Option.some.inj h
      omega
    · exact Nat.lt_succ_of_lt (ih h)

theorem cutFallback_le (p : List Char) (L : Nat) (hp : p.length ≤ L) :
    cutFallback p L ≤ L := by
  unfold cutFallback
  cases h : break1Idx p with
  | none => exact Nat.le_refl L
  | some i =>
    have := searchBack_lt _ _ _ h
    show (if 200 ≤ i then i else L) ≤ L
    split <;> omega

theorem cutPoint_le (p : List Char) (L : Nat) (hp : p.length ≤ L) :
    cutPoint p L ≤ L := by
  unfold cutPoint
  cases h : break2Idx p with
  | none => exact cutFallback_le p L hp
  | some i =>
    have := searchBack_lt _ _ _ h
    have hf := cutFallback_le p L hp
    show (if 200 ≤ i then i else cutFallback p L) ≤ L
    split <;> omega

theorem chunkLoop_sound (L fuel : Nat) (r : List Char) :
    ∀ f ∈ chunkLoop L fuel r, f ≠ [] ∧ f.length ≤ L := by
  induction fuel generalizing r with
  | zero =>
    intro f hf
    simp [chunkLoop] at hf
  | succ n ih =>
    intro f hf
    simp only [chunkLoop] at hf
    split at hf
    · split at hf
      · simp at hf
      · rename_i hfit hne
        simp only [List.mem_singleton] at hf
        subst hf
        exact ⟨by simpa using hne, hfit⟩
    · rename_i hbig
      have hcut : cutPoint (r.take L) L ≤ L :=
        cutPoint_le _ _ (by simp [List.length_take])
      split at hf
      · exact ih _ f hf
      · rename_i hfrag
        rcases List.mem_cons.mp hf with heq | hmem
        · subst heq
          refine ⟨by simpa using hfrag, ?_⟩
          calc (stripChars (r.take (cutPoint (r.take L) L))).length
              ≤ (r.take (cutPoint (r.take L) L)).length := stripChars_length_le _
            _ ≤ cutPoint (r.take L) L := by simp [List.length_take]
            _ ≤ L := hcut
        · exact ih _ f hmem

theorem handle_cb_eval (cb m chat cid mid : Json) (ds : String)
    (hd : pyGet cb "data" (.str "") = .ok (.str ds))
    (hm : pyGet cb "message" .null = .ok m)
    (hc : pyIndex m "chat" = .ok chat)
    (hcid : pyIndex chat "id" = .ok cid)
    (hmid : pyIndex m "message_id" = .ok mid) :
    handle_callback_query cb = routeToken ds cid mid := by
  simp only [handle_callback_query, hd, hm, hc, hcid, hmid, ok_bind, pyAsStr]

theorem handle_cb_ok_route (cb : Json) (ops : List Op)
    (h : handle_callback_query cb = .ok ops) :
    ∃ ds cid mid, routeToken ds cid mid = .ok ops := by
  unfold handle_callback_query at h
  cases h1 : pyGet cb "data" (.str "") with
  | error e => simp [h1, error_bind] at h
  | ok d =>
    cases h2 : pyGet cb "message" .null with
    | error e => simp [h1, h2, ok_bind, error_bind] at h
    | ok m =>
      cases h3 : pyIndex m "chat" with
      | error e => simp [h1, h2, h3, ok_bind, error_bind] at h
      | ok chat =>
        cases h4 : pyIndex chat "id" with
        | error e => simp [h1, h2, h3, h4, ok_bind, error_bind] at h
        | ok cid =>
          cases h5 : pyIndex m "message_id" with
          | error e => simp [h1, h2, h3, h4, h5, ok_bind, error_bind] at h
          | ok mid =>
            cases h6 : pyAsStr d with
            | error e => simp [h1, h2, h3, h4, h5, h6, ok_bind, error_bind] at h
            | ok ds =>
              refine ⟨ds, cid, mid, ?_⟩
              simpa [h1, h2, h3, h4, h5, h6, ok_bind] using h

theorem routeToken_tokens (ds : String) (cid mid : Json) (ops : List Op)
    (h : routeToken ds cid mid = .ok ops) :
    ∀ t ∈ opTokens ops, actualTokenShape t := by
  simp only [routeToken] at h
  split at h
  · cases h
    intro t ht
    simp [opTokens] at ht
  · split at h
    · cases h
      intro t ht
      simp only [opTokens, List.map_cons, List.map_nil, markupOf, Option.elim,
        markupTokens_build, List.flatten, List.append_nil] at ht
      rcases List.mem_map.mp ht with ⟨kv, _, hkv⟩
      exact Or.inr (Or.inl ⟨_, kv.1, hkv.symm⟩)
    · split at h
      · cases h
        intro t ht
        simp only [opTokens, List.map_cons, List.map_nil, markupOf, Option.elim,
          markupTokens_build, List.flatten, List.append_nil] at ht
        rcases List.mem_map.mp ht with ⟨kv, _, hkv⟩
        exact Or.inr (Or.inr ⟨_, _, kv.1, hkv.symm⟩)
      · split at h
        · cases h
          intro t ht
          simp [opTokens, markupOf] at ht
        · cases h
          intro t ht
          simp [opTokens] at ht

theorem handle_message_tokens (m : Json) (ops : List Op)
    (h : handle_message m = .ok ops) :
    ∀ t ∈ opTokens ops, actualTokenShape t := by
  unfold handle_message at h
  cases h1 : pyIndex m "chat" with
  | error e => simp [h1, error_bind] at h
  | ok chat =>
    cases h2 : pyIndex chat "id" with
    | error e => simp [h1, h2, ok_bind, error_bind] at h
    | ok cid =>
      simp only [h1, h2, ok_bind] at h
      cases h
      intro t ht
      simp only [opTokens, List.map_cons, List.map_nil, markupOf, Option.elim,
        markupTokens_build, List.flatten, List.append_nil] at ht
      rcases List.mem_map.mp ht with ⟨kv, _, hkv⟩
      exact Or.inl ⟨kv.1, hkv.symm⟩

theorem routeToken_unrecognized (ds : String) (cid mid : Json)
    (h : tokenRecognized (pySplit ds '|') = false) :
    routeToken ds cid mid = .ok [] := by
  unfold tokenRecognized at h
  simp only [Bool.or_eq_false_iff] at h
  simp only [routeToken]
  split
  · rfl
  · rw [h.1.1, h.1.2, h.2]
    rfl

theorem pyGet_ok_of_ok (j : Json) (k1 k2 : String) (d1 d2 v : Json)
    (h : pyGet j k1 d1 = .ok v) : ∃ w, pyGet j k2 d2 = .ok w := by
  cases j <;> simp [pyGet] at h ⊢

/-- The claim of C4, proved for the three payload projections the handler
actually consumes: the `data` field, the chat id and the message id. -/
theorem handle_cb_deterministic (cb1 cb2 : Json)
    (hds : cbRawData cb1 = cbRawData cb2)
    (hcid : cbChatId cb1 = cbChatId cb2)
    (hmid : cbMessageId cb1 = cbMessageId cb2) :
    handle_callback_query cb1 = handle_callback_query cb2 := by
  unfold cbRawData at hds
  unfold cbChatId at hcid
  unfold cbMessageId at hmid
  unfold handle_callback_query
  cases h1 : pyGet cb1 "data" (.str "") with
  | error e =>
    rw [h1] at hds
    rw [← hds]
    simp only [error_bind]
  | ok d =>
    rw [h1] at hds
    rw [← hds]
    rcases pyGet_ok_of_ok cb1 "data" "message" (.str "") .null d h1 with ⟨m1, hm1⟩
    rcases pyGet_ok_of_ok cb2 "data" "message" (.str "") .null d hds.symm with ⟨m2, hm2⟩
    rw [hm1, hm2] at hcid
    rw [hm1, hm2] at hmid
    simp only [ok_bind] at hcid hmid
    rw [hm1, hm2]
    simp only [ok_bind]
    cases h2 : pyIndex m1 "chat" with
    | error e =>
      simp only [error_bind]
      rw [h2] at hcid
      simp only [error_bind] at hcid
      cases h2' : pyIndex m2 "chat" with
      | error e' =>
        simp only [error_bind]
        rw [h2'] at hcid
        simp only [error_bind] at hcid
        injection hcid with he
        rw [he]
      | ok c2 =>
        simp only [ok_bind]
        rw [h2'] at hcid
        simp only [ok_bind] at hcid
        rw [← hcid]
        simp only [error_bind]
    | ok c1 =>
      simp only [ok_bind]
      rw [h2] at hcid
      simp only [ok_bind] at hcid
      cases h3 : pyIndex c1 "id" with
      | error e =>
        simp only [error_bind]
        rw [h3] at hcid
        cases h2' : pyIndex m2 "chat" with
        | error e' =>
          simp only [error_bind]
          rw [h2'] at hcid
          simp only [error_bind] at hcid
          injection hcid with he
          rw [he]
        | ok c2 =>
          simp only [ok_bind]
          rw [h2'] at hcid
          simp only [ok_bind] at hcid
          rw [← hcid]
          simp only [error_bind]
      | ok i1 =>
        simp only [ok_bind]
        rw [h3] at hcid
        cases h2' : pyIndex m2 "chat" with
        | error e' =>
          rw [h2'] at hcid
          simp only [error_bind] at hcid
          cases hcid
        | ok c2 =>
          simp only [ok_bind]
          rw [h2'] at hcid
          simp only [ok_bind] at hcid
          rw [← hcid]
          simp only [ok_bind]
          rw [hmid]

/-- Claim C1 (amended): a callback event whose token is unrecognized but
whose originating message, chat id and message id are present is silently
ignored — no outbound operation, no exception; but a callback event whose
`message` field is absent raises a `TypeError` instead of being skipped. -/
theorem C1_malformed_update_handling :
    (∀ (cb m chat cid mid : Json) (ds : String),
        pyGet cb "data" (.str "") = .ok (.str ds) →
        pyGet cb "message" .null = .ok m →
        pyIndex m "chat" = .ok chat →
        pyIndex chat "id" = .ok cid →
        pyIndex m "message_id" = .ok mid →
        tokenRecognized (pySplit ds '|') = false →
        handle_callback_query cb = .ok []) ∧
    (∀ fields : List (String × Json),
        dget fields "message" = none →
        handle_callback_query (.obj fields) = .error .typeError) := by
  constructor
  · intro cb m chat cid mid ds hd hm hc hcid hmid htok
    rw [handle_cb_eval cb m chat cid mid ds hd hm hc hcid hmid]
    exact routeToken_unrecognized ds cid mid htok
  · intro fields hmiss
    unfold handle_callback_query
    have hd : pyGet (Json.obj fields) "data" (.str "") =
        .ok ((dget fields "data").getD (.str "")) := rfl
    have hm : pyGet (Json.obj fields) "message" .null = .ok .null := by
      simp [pyGet, hmiss]
    rw [hd, hm]
    rfl

/-- Claim C1 counterexample: a callback payload with no `message` field is
malformed, yet the handler raises (`TypeError`, from subscripting `None`)
instead of completing silently as the claim states. -/
theorem C1_missing_message_raises_cex :
    handle_callback_query cbMissingMsg = .error .typeError := rfl

/-- Witness for C1: a well-formed callback with the unrecognized token
`bogus` is silently ignored, and the message-less payload raises. -/
theorem C1_malformed_update_handling_witness :
    handle_callback_query (mkCbQuery "bogus") = .ok [] ∧
    handle_callback_query (.obj [("data", .str "cat|x")]) = .error .typeError := by
  constructor
  · exact C1_malformed_update_handling.1 (mkCbQuery "bogus") _ _ _ _ "bogus"
      rfl rfl rfl rfl rfl (by decide)
  · exact C1_malformed_update_handling.2 [("data", .str "cat|x")] rfl

/-- Claim C2 (amended): every callback token the program attaches to an
outbound button has one of the shapes `cat|<category>`,
`sub|<category>|<subcategory>` or `item|<category>|<subcategory>|<item>`
(there is no `back|main` token, tokens are not ASCII-only and are not
bounded by 64 bytes). -/
theorem C2_actual_token_grammar :
    (∀ (m : Json) (ops : List Op), handle_message m = .ok ops →
        ∀ t ∈ opTokens ops, actualTokenShape t) ∧
    (∀ (cb : Json) (ops : List Op), handle_callback_query cb = .ok ops →
        ∀ t ∈ opTokens ops, actualTokenShape t) := by
  constructor
  · exact handle_message_tokens
  · intro cb ops h
    rcases handle_cb_ok_route cb ops h with ⟨ds, cid, mid, hr⟩
    exact routeToken_tokens ds cid mid ops hr

/-- Claim C2 counterexample: the subcategory view for `الأعمال`/`ذو الحجة`
emits a button token that is 99 UTF-8 bytes long, contains non-ASCII
characters, and matches none of the spec's four token shapes. -/
theorem C2_token_limits_cex :
    handle_callback_query (mkCbQuery ("sub|" ++ "الأعمال" ++ "|" ++ "ذو الحجة")) =
      .ok [Op.edit (Json.num 1) (Json.num 2)
        ("اختر موضوعًا من " ++ "ذو الحجة" ++ ":") (some subKb)] ∧
    longToken ∈ markupTokens subKb ∧
    64 < longToken.utf8ByteSize ∧
    longToken.data.all (fun ch => ch.toNat < 128) = false ∧
    specTokenOk longToken = false :=
  ⟨rfl, by decide, by decide, by decide, by decide⟩

/-- Witness for C2: the root-menu button token for the first category has
the `cat|<category>` shape. -/
theorem C2_actual_token_grammar_witness :
    actualTokenShape "cat|الأدعية" := by
  have h : handle_message (Json.obj [("chat", Json.obj [("id", Json.num 7)]), ("text", Json.str "hi")]) =
      .ok [Op.send (Json.num 7) rootPrompt (some (build_keyboard CONTENT "cat"))] := rfl
  exact C2_actual_token_grammar.1 _ _ h "cat|الأدعية" (by decide)

/-- Claim C3 (amended): an `it|...` token is not one of the recognized
kinds, so the router emits no operation at all — no "section not found"
message — and, this variant having no fetcher, no fetch happens. -/
theorem C3_it_token_ignored :
    ∀ (cb m chat cid mid : Json) (ds : String) (rest : List String),
      pyGet cb "data" (.str "") = .ok (.str ds) →
      pyGet cb "message" .null = .ok m →
      pyIndex m "chat" = .ok chat →
      pyIndex chat "id" = .ok cid →
      pyIndex m "message_id" = .ok mid →
      pySplit ds '|' = "it" :: rest →
      handle_callback_query cb = .ok [] := by
  intro cb m chat cid mid ds rest hd hm hc hcid hmid hsplit
  rw [handle_cb_eval cb m chat cid mid ds hd hm hc hcid hmid]
  apply routeToken_unrecognized
  rw [hsplit]
  have e1 : (("it" : String) == "cat") = false := by decide
  have e2 : (("it" : String) == "sub") = false := by decide
  have e3 : (("it" : String) == "item") = false := by decide
  simp [tokenRecognized, e1, e2, e3]

/-- Claim C3 counterexample: on the spec's own scenario token
`it|dua|/content/dua/item1` the handler performs no outbound operation at
all, so in particular it does not emit a "section not found" message. -/
theorem C3_unknown_it_token_cex :
    handle_callback_query (mkCbQuery "it|dua|/content/dua/item1") = .ok [] := rfl

/-- Witness for C3: the amended theorem applied to the spec's scenario
token. -/
theorem C3_it_token_ignored_witness :
    handle_callback_query (mkCbQuery "it|dua|item1") = .ok [] :=
  C3_it_token_ignored (mkCbQuery "it|dua|item1") _ _ _ _ "it|dua|item1"
    ["dua", "item1"] rfl rfl rfl rfl rfl (by decide)

/-- Witness for C4: two callback payloads that differ in an extra `id`
field but agree on `data`, chat id and message id get identical outbound
behaviour. -/
theorem handle_cb_deterministic_witness :
    handle_callback_query cbW1 = handle_callback_query cbW2 :=
  handle_cb_deterministic cbW1 cbW2 rfl rfl rfl

/-- Claim C5 (amended): a non-JSON body yields the 400 client error; a
valid-JSON body whose processing completes returns the fixed
acknowledgment `{"status": "ok"}`; but a valid-JSON body whose processing
raises (e.g. a callback query without its `message`) propagates the
exception as a 500 error instead of the acknowledgment. -/
theorem C5_webhook_responses :
    (telegram_webhook none = .error .badRequest ∧ statusCode .badRequest = 400) ∧
    (∀ (u : Json) (ops : List Op), processUpdate u = .ok ops →
        telegram_webhook (some u) = .ok (ackBody, ops)) ∧
    (∀ (u : Json) (e : PyErr), processUpdate u = .error e →
        telegram_webhook (some u) = .error (.internalError e)) := by
  refine ⟨⟨rfl, rfl⟩, ?_, ?_⟩
  · intro u ops h
    simp [telegram_webhook, h]
  · intro u e h
    simp [telegram_webhook, h]

/-- Claim C5 counterexample: the valid-JSON update
`{"callback_query": {"data": "x"}}` does not get the fixed acknowledgment —
processing raises and the endpoint fails with a 500 server error. -/
theorem C5_crash_no_ack_cex :
    telegram_webhook (some updNoMsg) = .error (.internalError .typeError) ∧
    statusCode (.internalError .typeError) = 500 :=
  ⟨rfl, rfl⟩

/-- Witness for C5: a plain text-message update is processed and receives
the fixed acknowledgment. -/
theorem C5_webhook_responses_witness :
    telegram_webhook (some (mkMsgUpdate (Json.num 5) "hello")) =
      .ok (ackBody, [Op.send (Json.num 5) rootPrompt (some (build_keyboard CONTENT "cat"))]) :=
  C5_webhook_responses.2.1 _ _ rfl

/-- Claim C6: if `BOT_TOKEN` is absent from the environment, module
initialization raises the startup `RuntimeError`; with a non-empty
credential it succeeds. -/
theorem C6_token_required :
    (∀ env : String → Option String, env "BOT_TOKEN" = none →
        moduleInit env =
          .error "BOT_TOKEN environment variable is not set. Please configure your bot token") ∧
    (∀ (env : String → Option String) (t : String),
        env "BOT_TOKEN" = some t → t ≠ "" → moduleInit env = .ok t) := by
  constructor
  · intro env h
    simp [moduleInit, h]
  · intro env t h ht
    simp [moduleInit, h, ht]

/-- Witness for C6: the empty environment fails initialization, an
environment carrying a token succeeds. -/
theorem C6_token_required_witness :
    moduleInit (fun _ => none) =
      .error "BOT_TOKEN environment variable is not set. Please configure your bot token" ∧
    moduleInit (fun _ => some "123:abc") = .ok "123:abc" :=
  ⟨C6_token_required.1 _ rfl, C6_token_required.2 _ "123:abc" rfl (by decide)⟩

/-- Claim C7 (amended, spec-modelled Chunker): for a limit `L > 0` and an
input whose trimmed text is non-empty, every fragment is non-empty and at
most `L` characters long, and a trimmed input that already fits is
returned as the single fragment. -/
theorem C7_chunker_bounds (T : List Char) (L : Nat) (hL : 0 < L)
    (hne : stripChars T ≠ []) :
    (∀ f ∈ chunk_text T L, f ≠ [] ∧ f.length ≤ L) ∧
    ((stripChars T).length ≤ L → chunk_text T L = [stripChars T]) := by
  simp only [chunk_text]
  constructor
  · intro f hf
    split at hf
    · rename_i hfit
      simp only [List.mem_singleton] at hf
      subst hf
      exact ⟨hne, hfit⟩
    · exact chunkLoop_sound L _ _ f hf
  · intro hfit
    simp [hfit]

/-- Claim C7 counterexample: on the empty text with limit 1 the Chunker
returns exactly one fragment — the empty one — so the claim's "only
non-empty fragments" fails for inputs whose trimmed text is empty. -/
theorem C7_empty_fragment_cex :
    0 < 1 ∧ ([] : List Char) ∈ chunk_text [] 1 := by decide

/-- Witness for C7: a short text is returned trimmed as a single
fragment. -/
theorem C7_chunker_bounds_witness :
    chunk_text (' ' :: 'a' :: 'b' :: [] : List Char) 5 =
      [stripChars (' ' :: 'a' :: 'b' :: [])] :=
  (C7_chunker_bounds (' ' :: 'a' :: 'b' :: []) 5 (by decide) (by decide)).2 (by decide)

/-- Claim C8: an `item|<category>|<subcategory>|<item>` token whose path is
absent from the catalog is not ignored: every lookup level defaults to the
empty dict, so the handler still edits the message, with the empty text
and no footer. -/
theorem C8_missing_item_empty_edit :
    ∀ (cb m chat cid mid : Json) (ds : String) (c s i : String),
      pyGet cb "data" (.str "") = .ok (.str ds) →
      pyGet cb "message" .null = .ok m →
      pyIndex m "chat" = .ok chat →
      pyIndex chat "id" = .ok cid →
      pyIndex m "message_id" = .ok mid →
      pySplit ds '|' = ["item", c, s, i] →
      dget ((dget ((dget CONTENT c).getD []) s).getD []) i = none →
      handle_callback_query cb = .ok [Op.edit cid mid "" none] := by
  intro cb m chat cid mid ds c s i hd hm hc hcid hmid hsplit hmiss
  rw [handle_cb_eval cb m chat cid mid ds hd hm hc hcid hmid]
  simp only [routeToken, hsplit]
  rw [show (["item", c, s, i] : List String).getD 1 "" = c from rfl,
      show (["item", c, s, i] : List String).getD 2 "" = s from rfl,
      show (["item", c, s, i] : List String).getD 3 "" = i from rfl,
      hmiss]
  rfl

/-- Witness for C8: the token `item|x|y|z` names no catalog entry, and the
handler answers with an edit carrying the empty text. -/
theorem C8_missing_item_empty_edit_witness :
    handle_callback_query (mkCbQuery "item|x|y|z") =
      .ok [Op.edit (Json.num 1) (Json.num 2) "" none] :=
  C8_missing_item_empty_edit (mkCbQuery "item|x|y|z") _ _ _ _ "item|x|y|z"
    "x" "y" "z" rfl rfl rfl rfl rfl (by decide) (by decide)

/-- Claim C9: `build_keyboard` yields exactly one single-button row per
option key, rows in mapping order, the label being the key and the token
the prefix, a pipe and the key. -/
theorem build_keyboard_rows {α : Type} (options : List (String × α)) (pfx : String) :
    (build_keyboard options pfx).inline_keyboard.length = options.length ∧
    ∀ i, i < options.length →
      (build_keyboard options pfx).inline_keyboard.getD i [] =
        [{ text := (options.map Prod.fst).getD i "",
           callback_data := pfx ++ "|" ++ (options.map Prod.fst).getD i "" }] := by
  constructor
  · simp [build_keyboard]
  · induction options with
    | nil =>
      intro i hi
      simp at hi
    | cons kv rest ih =>
      intro i hi
      cases i with
      | zero => simp [build_keyboard]
      | succ n =>
        have := ih n (by simpa using Nat.lt_of_succ_lt_succ hi)
        simpa [build_keyboard] using this

/-- Witness for C9: a two-option keyboard has two rows, and its second row
is the singleton button for the second key. -/
theorem build_keyboard_rows_witness :
    (build_keyboard [("a", 1), ("b", 2)] "cat").inline_keyboard.length = 2 ∧
    (build_keyboard [("a", (1 : Nat)), ("b", 2)] "cat").inline_keyboard.getD 1 [] =
      [{ text := "b", callback_data := "cat" ++ "|" ++ "b" }] := by
  refine ⟨(build_keyboard_rows [("a", 1), ("b", 2)] "cat").1, ?_⟩
  have h := (build_keyboard_rows [("a", (1 : Nat)), ("b", 2)] "cat").2 1 (by decide)
  simpa using h

/-- Claim C10: any two text-message events with the same chat id — whatever
their texts, commands included — receive the identical reply: the fixed
root prompt with the top-level category keyboard. -/
theorem handle_message_uniform (cid : Json) (t1 t2 : String)
    (h1 : t1 ≠ "") (h2 : t2 ≠ "") :
    processUpdate (mkMsgUpdate cid t1) = processUpdate (mkMsgUpdate cid t2) ∧
    processUpdate (mkMsgUpdate cid t1) =
      .ok [Op.send cid rootPrompt (some (build_keyboard CONTENT "cat"))] := by
  have key : ∀ t : String, t ≠ "" →
      processUpdate (mkMsgUpdate cid t) =
        .ok [Op.send cid rootPrompt (some (build_keyboard CONTENT "cat"))] := by
    intro t ht
    have step : processUpdate (mkMsgUpdate cid t) =
        (if truthy (Json.str t) then
          handle_message (Json.obj [("chat", Json.obj [("id", cid)]), ("text", Json.str t)])
        else pure []) := rfl
    have htr : truthy (Json.str t) = true := bne_iff_ne.mpr ht
    rw [step, if_pos htr]
    rfl
  exact ⟨(key t1 h1).trans (key t2 h2).symm, key t1 h1⟩

/-- Witness for C10: the command `/start` and an Arabic greeting get the
same root-menu reply in chat 5. -/
theorem handle_message_uniform_witness :
    processUpdate (mkMsgUpdate (Json.num 5) "/start") =
      processUpdate (mkMsgUpdate (Json.num 5) "مرحبا") ∧
    processUpdate (mkMsgUpdate (Json.num 5) "/start") =
      .ok [Op.send (Json.num 5) rootPrompt (some (build_keyboard CONTENT "cat"))] :=
  handle_message_uniform (Json.num 5) "/start" "مرحبا" (by decide) (by decide)
